import Mathlib

/-!
Shallow embedding of `src/app.py` (Tejas Estimator API).

The Python source resolves a free-text address or quick-reference identifier
into a parcel record.  The pieces embedded here:

* `parse_address_loose` and `parse_legal_description` are regex-driven
  parsers; we embed a small backtracking regex engine whose result order
  matches CPython's `re` (leftmost alternative first, greedy quantifiers
  longest-first, lazy quantifiers shortest-first) and instantiate it with the
  exact patterns of the source.
* The query cascade of the `/estimate` handler (clause construction and the
  first-non-empty selection loop), with the datastore abstracted as a
  function from `where`-clause strings to results.
* The geometry pipeline (reproject, perimeter, area, acres, centroid,
  2-decimal rounding) over an exact embedding of polygon geometry with
  rings as coordinate lists, and the KMZ exterior-ring extraction of
  `generate_kmz`.
* The artifact paths of `generate_kmz` (a fresh temporary file) and of the
  `/download_kmz` handler (the constant `/tmp/parcel.kmz`).
-/

namespace TejasEstimator

/-- Capture environment: most recent binding of a group number first,
mirroring how a regex engine overwrites a group on its latest match. -/
abbrev Caps := List (Nat × List Char)

/-- Regex abstract syntax; only the constructs used by the two patterns in
`src/app.py` lines 49, 60, 63 and 66. -/
inductive RE : Type where
  | fail : RE
  | eps : RE
  | cls (p : Char → Bool) : RE
  | seq (a b : RE) : RE
  | alt (a b : RE) : RE
  | grp (n : Nat) (r : RE) : RE
  | optG (r : RE) : RE
  | starG (r : RE) : RE
  | starL (r : RE) : RE

/-- Greedy star iteration: run the body matcher `step` up to `fuel` times,
longer matches first, finishing with the empty iteration. -/
def starGRun (step : List Char → Caps → List (List Char × Caps)) :
    Nat → List Char → Caps → List (List Char × Caps)
  | 0, s, c => [(s, c)]
  | f+1, s, c => ((step s c).flatMap fun rc => starGRun step f rc.1 rc.2) ++ [(s, c)]

/-- Lazy star iteration: empty iteration first, then longer matches. -/
def starLRun (step : List Char → Caps → List (List Char × Caps)) :
    Nat → List Char → Caps → List (List Char × Caps)
  | 0, s, c => [(s, c)]
  | f+1, s, c => (s, c) :: (step s c).flatMap fun rc => starLRun step f rc.1 rc.2

/-- Backtracking matcher.  Returns every way the expression can match a
prefix of the input, as `(rest, captures)` pairs, in exactly the priority
order a backtracking engine (CPython `re`) explores: left alternative
before right, greedy star longest-first, lazy star shortest-first,
greedy option present-first.  `fuel` bounds star unfolding; callers pass
`input.length + 1`, which is never exhausted because every star body in
the embedded patterns consumes at least one character per iteration. -/
def runRE : RE → Nat → List Char → Caps → List (List Char × Caps)
  | .fail, _, _, _ => []
  | .eps, _, s, c => [(s, c)]
  | .cls p, _, s, c =>
      match s with
      | [] => []
      | ch :: rest => if p ch then [(rest, c)] else []
  | .seq a b, f, s, c => (runRE a f s c).flatMap fun rc => runRE b f rc.1 rc.2
  | .alt a b, f, s, c => runRE a f s c ++ runRE b f s c
  | .grp n r, f, s, c =>
      (runRE r f s c).map fun rc => (rc.1, (n, s.take (s.length - rc.1.length)) :: rc.2)
  | .optG r, f, s, c => runRE r f s c ++ [(s, c)]
  | .starG r, f, s, c => starGRun (runRE r f) f s c
  | .starL r, f, s, c => starLRun (runRE r f) f s c

/-- `r+` (greedy). -/
def RE.plusG (r : RE) : RE := .seq r (.starG r)

/-- `r+?` (lazy). -/
def RE.plusL (r : RE) : RE := .seq r (.starL r)

/-- Case-insensitive literal, as the patterns are compiled with
`re.IGNORECASE` in the source. -/
def RE.ilit (s : String) : RE :=
  s.data.foldr (fun a r => .seq (.cls fun c => c.toUpper == a.toUpper) r) .eps

/-- Ordered alternation of a list of expressions (leftmost preferred). -/
def RE.altOf (l : List RE) : RE := l.foldr .alt .fail

/-- Anchored match over the whole input (`^ ... $` with no trailing
newline, which holds because the source trims the input first): the first
full match in backtracking order. -/
def reFullMatch (r : RE) (s : List Char) : Option Caps :=
  (((runRE r (s.length + 1) s []).filter fun rc => rc.1.isEmpty).head?).map (·.2)

/-- `re.match`: anchored at the start only; returns the matched prefix
(group 0) and the captures of the first match in backtracking order. -/
def reMatchAt (r : RE) (s : List Char) : Option (List Char × Caps) :=
  ((runRE r (s.length + 1) s []).head?).map fun rc =>
    (s.take (s.length - rc.1.length), rc.2)

/-- `re.search`: try each start position left to right. -/
def reSearch (r : RE) : List Char → Option (List Char × Caps)
  | [] => reMatchAt r []
  | ch :: t =>
    match reMatchAt r (ch :: t) with
    | some m => some m
    | none => reSearch r t

/-- Python `\d` (ASCII inputs). -/
def isDigitC (c : Char) : Bool := c.isDigit

/-- Python `\s` (ASCII whitespace set). -/
def isSpaceC (c : Char) : Bool :=
  c == ' ' || c == '\t' || c == '\n' || c == '\r' || c == '\x0b' || c == '\x0c'

/-- Python `\w` (ASCII inputs). -/
def isWordC (c : Char) : Bool := c.isAlphanum || c == '_'

/-- Python `.` without `DOTALL`. -/
def isDotC (c : Char) : Bool := c != '\n'

/-- Python `str.strip(chars)` restricted to a character predicate: drop
matching characters from both ends. -/
def pyStripBy (p : Char → Bool) (s : String) : String :=
  String.mk (((s.data.dropWhile p).reverse.dropWhile p).reverse)

/-- Python `str.strip()` with no argument: drop whitespace from both ends. -/
def pyStrip (s : String) : String := pyStripBy isSpaceC s

/-- Python `str.upper()` on ASCII text. -/
def pyUpper (s : String) : String := String.mk (s.data.map Char.toUpper)

/-- Python `str.title()` on ASCII text: a letter is uppercased when the
previous character is not a letter, lowercased otherwise. -/
def pyTitleAux : Bool → List Char → List Char
  | _, [] => []
  | prevAlpha, c :: rest =>
    if c.isAlpha then
      (if prevAlpha then c.toLower else c.toUpper) :: pyTitleAux true rest
    else
      c :: pyTitleAux false rest

/-- Python `str.title()`. -/
def pyTitle (s : String) : String := String.mk (pyTitleAux false s.data)

/-- The closed set of recognized street-type abbreviations, in the
alternation order of the pattern at `src/app.py` line 49. -/
def streetTypes : List String :=
  ["RD", "ST", "DR", "LN", "BLVD", "CT", "AVE", "HWY", "WAY", "TRAIL", "PKWY", "CIR"]

/-- The pattern of `parse_address_loose`
(`^(\d+)?\s*([\w\s]+?)(\s+(RD|ST|...|CIR))?$`). -/
def addressRE : RE :=
  .seq (.optG (.grp 1 (RE.plusG (.cls isDigitC))))
    (.seq (.starG (.cls isSpaceC))
      (.seq (.grp 2 (RE.plusL (.cls fun c => isWordC c || isSpaceC c)))
        (.optG (.grp 3 (.seq (RE.plusG (.cls isSpaceC))
          (.grp 4 (RE.altOf (streetTypes.map RE.ilit))))))))

/-- `parse_address_loose` (`src/app.py` lines 48-56): trim and uppercase the
input, match the address pattern anchored at both ends, and return
`(number, name, street_type)` with the source's `or ''` / `strip()`
post-processing; `none` models the `(None, None, None)` failure return. -/
def parse_address_loose (address : String) : Option (String × String × String) :=
  let s := (pyUpper (pyStrip address)).data
  match reFullMatch addressRE s with
  | none => none
  | some caps =>
    let number := String.mk ((caps.lookup 1).getD [])
    let name := pyStrip (String.mk ((caps.lookup 2).getD []))
    let st_type :=
      match caps.lookup 4 with
      | some g4 => if g4.isEmpty then "" else pyStrip (String.mk g4)
      | none => ""
    some (pyStrip number, name, st_type)

/-- The subdivision pattern of `parse_legal_description`
(`^(.*?)(BLOCK|LOT|RESERVE|ACRES)`, `re.IGNORECASE`). -/
def legalSubdivRE : RE :=
  .seq (.grp 1 (.starL (.cls isDotC)))
    (.grp 2 (RE.altOf [RE.ilit "BLOCK", RE.ilit "LOT", RE.ilit "RESERVE", RE.ilit "ACRES"]))

/-- The block pattern (`BLOCK\s+(\w+)`, `re.IGNORECASE`). -/
def blockRE : RE :=
  .seq (RE.ilit "BLOCK") (.seq (RE.plusG (.cls isSpaceC)) (.grp 1 (RE.plusG (.cls isWordC))))

/-- The lot pattern (`(LOT|RESERVE)\s+["\w]+`, `re.IGNORECASE`). -/
def lotRE : RE :=
  .seq (.grp 1 (RE.altOf [RE.ilit "LOT", RE.ilit "RESERVE"]))
    (.seq (RE.plusG (.cls isSpaceC)) (RE.plusG (.cls fun c => c == '"' || isWordC c)))

/-- `parse_legal_description` (`src/app.py` lines 58-69): three independent
case-insensitive extractions over the same string; `none` models a Python
`None` for an absent component. -/
def parse_legal_description (legal : String) :
    Option String × Option String × Option String :=
  let l := legal.data
  let subdivision :=
    (reMatchAt legalSubdivRE l).map fun m =>
      pyTitle (pyStripBy (fun c => c == ',' || c == ' ') (String.mk ((m.2.lookup 1).getD [])))
  let block := (reSearch blockRE l).map fun m => String.mk ((m.2.lookup 1).getD [])
  let lot := (reSearch lotRE l).map fun m => pyStrip (String.mk m.1)
  (subdivision, block, lot)

/-- Canonical-to-native field-name dictionary of one jurisdiction
(`COUNTY_CONFIG[...]["fields"]`, `src/app.py` lines 13-44). -/
structure FieldMap where
  street_num : String
  street_name : String
  street_type : String
  owner : String
  legal : String
  deed : String
  parcel_id : String
  quickrefid : String
  acres : String
  market : String
deriving DecidableEq

/-- Fort Bend field dictionary (`src/app.py` lines 16-27). -/
def fortbendFields : FieldMap :=
  { street_num := "situssno", street_name := "situssnm", street_type := "situsstp"
    owner := "ownername", legal := "legal", deed := "instrunum"
    parcel_id := "propnumber", quickrefid := "quickrefid"
    acres := "landsizeac", market := "totalvalue" }

/-- Harris field dictionary (`src/app.py` lines 31-42). -/
def harrisFields : FieldMap :=
  { street_num := "site_str_num", street_name := "site_str_name", street_type := "site_str_sfx"
    owner := "owner_name_1", legal := "legal_desc", deed := "deed_ref"
    parcel_id := "HCAD_NUM", quickrefid := "LOWPARCELID"
    acres := "Acreage", market := "MKT_VAL" }

/-- The quick-reference where-clause (`src/app.py` line 123). -/
def quickrefClause (f : FieldMap) (q : String) : String :=
  f.quickrefid ++ " = \x27" ++ q ++ "\x27"

/-- Tier-1 clause: number exact, name substring, type exact
(`src/app.py` line 132). -/
def tier1Clause (f : FieldMap) (number name st_type : String) : String :=
  f.street_num ++ " = \x27" ++ number ++ "\x27 AND UPPER(" ++ f.street_name ++
    ") LIKE \x27%" ++ pyUpper name ++ "%\x27 AND UPPER(" ++ f.street_type ++
    ") = \x27" ++ pyUpper st_type ++ "\x27"

/-- Tier-2 clause: number exact, name substring (`src/app.py` line 134). -/
def tier2Clause (f : FieldMap) (number name : String) : String :=
  f.street_num ++ " = \x27" ++ number ++ "\x27 AND UPPER(" ++ f.street_name ++
    ") LIKE \x27%" ++ pyUpper name ++ "%\x27"

/-- Tier-3 clause: name substring alone (`src/app.py` line 135). -/
def tier3Clause (f : FieldMap) (name : String) : String :=
  "UPPER(" ++ f.street_name ++ ") LIKE \x27%" ++ pyUpper name ++ "%\x27"

/-- Clause construction of the address branch (`src/app.py` lines 130-135):
tier 1 only when both number and street type are truthy, tier 2 when the
number is truthy, tier 3 always. -/
def buildClauses (f : FieldMap) (number name st_type : String) : List String :=
  (if number ≠ "" ∧ st_type ≠ "" then [tier1Clause f number name st_type] else []) ++
    (if number ≠ "" then [tier2Clause f number name] else []) ++
    [tier3Clause f name]

/-- Outcome of one datastore query (`query_parcels`, `src/app.py` lines
71-81): a feature list on HTTP success, `err` when the request or
`raise_for_status` raises. -/
inductive QueryResult (F : Type) where
  | ok (features : List F)
  | err
deriving DecidableEq

/-- The remote datastore, abstracted as the response to each where-clause. -/
abbrev Datastore (F : Type) := String → QueryResult F

/-- Outcome of the cascade loop (`src/app.py` lines 137-140). -/
inductive CascadeOut (F : Type) where
  | found (features : List F)
  | empty
  | err
deriving DecidableEq

/-- The cascade loop (`src/app.py` lines 137-140): issue each clause in
order, stop at the first truthy (non-empty) result; an exception from
`query_parcels` propagates.  Returns the list of clauses actually issued
together with the outcome; an exhausted list leaves `matches` empty. -/
def runCascade {F : Type} (ds : Datastore F) : List String → List String × CascadeOut F
  | [] => ([], .empty)
  | c :: rest =>
    match ds c with
    | .err => ([c], .err)
    | .ok [] =>
      let t := runCascade ds rest
      (c :: t.1, t.2)
    | .ok (x :: xs) => ([c], .found (x :: xs))

/-- The two request parameters the resolution step reads
(`request.args.get("address")`, `request.args.get("quickref")`);
`none` models an absent parameter. -/
structure EstRequest where
  address : Option String
  quickref : Option String

/-- Python truthiness of an optional request parameter: present and
non-empty. -/
def truthyOpt (o : Option String) : Bool := !(o.getD "").isEmpty

/-- Result of the parcel-resolution phase of the `/estimate` handler. -/
inductive ResolveOut (F : Type) where
  | invalid
  | notFound
  | found (features : List F)
  | err
deriving DecidableEq

/-- The parcel-resolution phase of `estimate` (`src/app.py` lines 106-143):
missing-selector check, quick-reference branch (`if quickref:`), address
branch (`elif address:` — parse, build cascade, run it), then the
`if not matches` 404.  Returns the where-clauses issued in order and the
outcome. -/
def resolveParcels {F : Type} (f : FieldMap) (ds : Datastore F) (req : EstRequest) :
    List String × ResolveOut F :=
  if ¬ (truthyOpt req.address || truthyOpt req.quickref) = true then ([], .invalid)
  else if truthyOpt req.quickref then
    let w := quickrefClause f (req.quickref.getD "")
    match ds w with
    | .err => ([w], .err)
    | .ok [] => ([w], .notFound)
    | .ok (x :: xs) => ([w], .found (x :: xs))
  else
    match parse_address_loose (req.address.getD "") with
    | none => ([], .invalid)
    | some (number, name, st_type) =>
      if name = "" then ([], .invalid)
      else
        match runCascade ds (buildClauses f number name st_type) with
        | (t, .found fs) => (t, .found fs)
        | (t, .empty) => (t, .notFound)
        | (t, .err) => (t, .err)

/-- A coordinate pair, as shapely stores ring coordinates. -/
abbrev Point : Type := ℝ × ℝ

/-- Euclidean distance between consecutive ring coordinates. -/
noncomputable def segLen (p q : Point) : ℝ :=
  Real.sqrt ((q.1 - p.1) ^ 2 + (q.2 - p.2) ^ 2)

/-- Length of a linear ring given as its (closed) coordinate list: the sum
of the segment lengths between consecutive coordinates, as shapely's
`length` computes it. -/
noncomputable def ringLength : List Point → ℝ
  | p :: q :: rest => segLen p q + ringLength (q :: rest)
  | _ => 0

/-- Twice the signed (shoelace) area of a closed coordinate list. -/
def ringCross : List Point → ℝ
  | p :: q :: rest => (p.1 * q.2 - q.1 * p.2) + ringCross (q :: rest)
  | _ => 0

/-- Unsigned area enclosed by one ring. -/
noncomputable def ringArea (r : List Point) : ℝ := |ringCross r| / 2

/-- x-moment accumulator of the polygon centroid formula. -/
def ringCxNum : List Point → ℝ
  | p :: q :: rest => (p.1 + q.1) * (p.1 * q.2 - q.1 * p.2) + ringCxNum (q :: rest)
  | _ => 0

/-- y-moment accumulator of the polygon centroid formula. -/
def ringCyNum : List Point → ℝ
  | p :: q :: rest => (p.2 + q.2) * (p.1 * q.2 - q.1 * p.2) + ringCyNum (q :: rest)
  | _ => 0

/-- A polygon as shapely models it: one exterior ring and a list of
interior rings (holes), each a closed coordinate list. -/
structure Poly where
  exterior : List Point
  holes : List (List Point)

/-- A `Polygon` or `MultiPolygon` GeoJSON geometry (`shape(feature["geometry"])`). -/
inductive Geom where
  | poly (p : Poly)
  | multi (ps : List Poly)

/-- `shapely.Polygon.length`: the boundary length, holes included. -/
noncomputable def polyLength (p : Poly) : ℝ :=
  ringLength p.exterior + (p.holes.map ringLength).sum

/-- `shapely.Polygon.area`: exterior area minus hole areas. -/
noncomputable def polyArea (p : Poly) : ℝ :=
  ringArea p.exterior - (p.holes.map ringArea).sum

/-- Geometry boundary length (`.length`), aggregated over the parts of a
`MultiPolygon`. -/
noncomputable def geomLength : Geom → ℝ
  | .poly p => polyLength p
  | .multi ps => (ps.map polyLength).sum

/-- Geometry planar area (`.area`), aggregated over the parts of a
`MultiPolygon`. -/
noncomputable def geomArea : Geom → ℝ
  | .poly p => polyArea p
  | .multi ps => (ps.map polyArea).sum

/-- `shapely.ops.transform(project, geom)`: apply a coordinate projection
to every coordinate of every ring. -/
def mapPoly (proj : Point → Point) (p : Poly) : Poly :=
  ⟨p.exterior.map proj, p.holes.map (List.map proj)⟩

/-- Pointwise coordinate projection of a geometry. -/
def mapGeom (proj : Point → Point) : Geom → Geom
  | .poly p => .poly (mapPoly proj p)
  | .multi ps => .multi (ps.map (mapPoly proj))

/-- All rings of a geometry, exteriors and holes. -/
def geomRings : Geom → List (List Point)
  | .poly p => p.exterior :: p.holes
  | .multi ps => ps.flatMap fun p => p.exterior :: p.holes

/-- `geom.centroid` for polygonal geometry: the area-weighted centroid
from the shoelace moments of all rings (holes carry opposite orientation
in valid geometry and so subtract). -/
noncomputable def geomCentroid (g : Geom) : Point :=
  let rs := geomRings g
  let a2 := (rs.map ringCross).sum
  ((rs.map ringCxNum).sum / (3 * a2), (rs.map ringCyNum).sum / (3 * a2))

/-- The geometry outputs of `estimate` (`src/app.py` lines 158-166). -/
structure GeometryMetrics where
  perimeter_ft : ℝ
  area_acres : ℝ
  centroid : Point

/-- The geometry pipeline of `estimate` (`src/app.py` lines 158-166):
reproject into the fixed planar system, take perimeter and area there,
convert square feet to acres, and take the centroid of the original
(unprojected) geometry for the maps link. -/
noncomputable def computeMetrics (proj : Point → Point) (geom : Geom) : GeometryMetrics :=
  let geom_proj := mapGeom proj geom
  { perimeter_ft := geomLength geom_proj
    area_acres := geomArea geom_proj / 43560
    centroid := geomCentroid geom }

/-- Rounding to 2 decimal places, as `round(x, 2)` serializes the two
numeric response fields (`src/app.py` lines 198-199). -/
noncomputable def round2 (x : ℝ) : ℝ := (round (x * 100) : ℤ) / 100

/-- The numeric response fields and maps-link coordinate of the JSON body
(`src/app.py` lines 166, 198-199): rounded acreage, rounded perimeter,
geographic centroid. -/
noncomputable def responseMetrics (proj : Point → Point) (geom : Geom) : ℝ × ℝ × Point :=
  (round2 (computeMetrics proj geom).area_acres,
   round2 (computeMetrics proj geom).perimeter_ft,
   (computeMetrics proj geom).centroid)

/-- The rings `generate_kmz` (`src/app.py` lines 83-102) draws: the
exterior ring of a `Polygon`, or the exterior ring of each part of a
`MultiPolygon`; interior rings are never emitted. -/
def kmzOuterRings : Geom → List (List Point)
  | .poly p => [p.exterior]
  | .multi ps => ps.map fun p => p.exterior

/-- The fixed path the `/download_kmz` handler reads
(`src/app.py` line 210). -/
def download_kmz_path : String := "/tmp/parcel.kmz"

/-- The path `generate_kmz` writes (`src/app.py` lines 100-102), modelled
from the documented naming of `tempfile.NamedTemporaryFile(delete=False,
suffix=".kmz")`: a fresh file in the temporary directory whose basename is
the `tmp` prefix, a random token, and the given suffix. -/
def tempKmzPath (token : String) : String := "/tmp/tmp" ++ token ++ ".kmz"

/-- A planar square of side 100 expressed directly in the target
projection's feet, as a closed ring. -/
def square100 : Geom :=
  .poly ⟨[((0 : ℝ), (0 : ℝ)), (100, 0), (100, 100), (0, 100), (0, 0)], []⟩

/-- Unfolding of one cascade step on a clause whose query fails. -/
lemma runCascade_cons_err {F : Type} (ds : Datastore F) (c : String)
    (rest : List String) (e : ds c = .err) :
    runCascade ds (c :: rest) = ([c], .err) := by
  rw [runCascade, e]

/-- Unfolding of one cascade step on a clause whose query returns empty. -/
lemma runCascade_cons_empty {F : Type} (ds : Datastore F) (c : String)
    (rest : List String) (e : ds c = .ok []) :
    runCascade ds (c :: rest) =
      (c :: (runCascade ds rest).1, (runCascade ds rest).2) := by
  rw [runCascade, e]

/-- Unfolding of one cascade step on a clause whose query returns
features. -/
lemma runCascade_cons_found {F : Type} (ds : Datastore F) (c : String)
    (rest : List String) (x : F) (xs : List F) (e : ds c = .ok (x :: xs)) :
    runCascade ds (c :: rest) = ([c], .found (x :: xs)) := by
  rw [runCascade, e]

/-- The clauses the cascade loop issues form a prefix of the clause list. -/
lemma runCascade_trace_prefix {F : Type} (ds : Datastore F) (cs : List String) :
    (runCascade ds cs).1 = cs.take ((runCascade ds cs).1.length) := by
  induction cs with
  | nil => simp [runCascade]
  | cons c rest ih =>
    cases e : ds c with
    | err => rw [runCascade_cons_err ds c rest e]; simp
    | ok fs =>
      cases fs with
      | nil =>
        rw [runCascade_cons_empty ds c rest e]
        simp only [List.length_cons, List.take_succ_cons, List.cons.injEq, true_and]
        exact ih
      | cons x xs => rw [runCascade_cons_found ds c rest x xs e]; simp

/-- Every issued clause except possibly the last returned an empty result:
the loop advances only on an explicit empty outcome. -/
lemma runCascade_dropLast_empty {F : Type} (ds : Datastore F) (cs : List String) :
    ∀ x ∈ (runCascade ds cs).1.dropLast, ds x = .ok [] := by
  induction cs with
  | nil => simp [runCascade]
  | cons c rest ih =>
    cases e : ds c with
    | err => rw [runCascade_cons_err ds c rest e]; simp
    | ok fs =>
      cases fs with
      | nil =>
        rw [runCascade_cons_empty ds c rest e]
        intro x hx
        rcases h0 : (runCascade ds rest).1 with _ | ⟨y, ys⟩
        · rw [h0] at hx
          simp at hx
        · rw [h0, List.dropLast_cons₂] at hx
          rcases List.mem_cons.1 hx with hx | hx
          · exact hx ▸ e
          · exact ih x (by rw [h0]; exact hx)
      | cons x xs => rw [runCascade_cons_found ds c rest x xs e]; simp

/-- A transport/server failure on the clause after `pre` empty results
stops the loop at that clause with the failure as the outcome. -/
lemma runCascade_append_err {F : Type} (ds : Datastore F) (pre : List String)
    (c : String) (post : List String) (hpre : ∀ x ∈ pre, ds x = .ok [])
    (hc : ds c = .err) :
    runCascade ds (pre ++ c :: post) = (pre ++ [c], .err) := by
  induction pre with
  | nil => simpa using runCascade_cons_err ds c post hc
  | cons p rest ih =>
    have hp : ds p = .ok [] := hpre p (by simp)
    have hrest := ih fun x hx => hpre x (by simp [hx])
    rw [List.cons_append, runCascade_cons_empty ds p (rest ++ c :: post) hp, hrest]
    simp

/-- A cascade that ended in a failure issued a run of clauses that all
returned empty, then the failing clause, and nothing after it. -/
lemma runCascade_err_decomp {F : Type} (ds : Datastore F) (cs : List String)
    (h : (runCascade ds cs).2 = .err) :
    ∃ pre c, (runCascade ds cs).1 = pre ++ [c] ∧
      (∀ x ∈ pre, ds x = .ok []) ∧ ds c = .err ∧
      cs.take (pre.length + 1) = pre ++ [c] := by
  induction cs with
  | nil => simp [runCascade] at h
  | cons c0 rest ih =>
    cases e : ds c0 with
    | err =>
      refine ⟨[], c0, ?_, by simp, e, by simp⟩
      rw [runCascade_cons_err ds c0 rest e]
      simp
    | ok fs =>
      cases fs with
      | nil =>
        rw [runCascade_cons_empty ds c0 rest e] at h
        rcases ih h with ⟨pre, c, h1, h2, h3, h4⟩
        refine ⟨c0 :: pre, c, ?_, ?_, h3, ?_⟩
        · rw [runCascade_cons_empty ds c0 rest e]
          simp [h1]
        · intro x hx
          rcases List.mem_cons.1 hx with hx | hx
          · exact hx ▸ e
          · exact h2 x hx
        · simp [List.take_succ_cons, h4]
      | cons x xs =>
        rw [runCascade_cons_found ds c0 rest x xs e] at h
        simp at h

/-- C9: `parse_address_loose "1234 Oak Grove Rd"` returns house number
`"1234"`, street name `"OAK GROVE"` and street type `"RD"`: the non-greedy
street-name segment defers to the recognized trailing type token. -/
theorem c9_parse_oak_grove :
    parse_address_loose "1234 Oak Grove Rd" = some ("1234", "OAK GROVE", "RD") := by
  decide

/-- C4 counterexample: the input `"RD"`, consisting only of a recognized
street-type token, does not fail to parse; the non-greedy street-name
segment absorbs the whole token and parsing returns street name `"RD"`. -/
theorem c4_rd_parses :
    parse_address_loose "RD" = some ("", "RD", "") := by
  decide

/-- C4 amended: parsing fails (no street name) for the empty string and for
whitespace-only input, but an input consisting only of a recognized
street-type token parses successfully, with that token as the street name
and with empty house number and street type. -/
theorem c4_empty_fails_type_token_parses :
    parse_address_loose "" = none ∧ parse_address_loose "   " = none ∧
      streetTypes.all (fun t => parse_address_loose t == some ("", t, "")) = true := by
  decide

/-- C3 counterexample: on `"UNRESTRICTED RESERVE A"` the subdivision is not
`none`: the subdivision regex matches with everything before `RESERVE` as
group 1, which strips and title-cases to `"Unrestricted"`. -/
theorem c3_subdivision_not_none :
    (parse_legal_description "UNRESTRICTED RESERVE A").1 = some "Unrestricted" := by
  decide

/-- C3 amended: `parse_legal_description "UNRESTRICTED RESERVE A"` returns
subdivision `"Unrestricted"`, block `none`, and lot/reserve `"RESERVE A"`. -/
theorem c3_unrestricted_reserve :
    parse_legal_description "UNRESTRICTED RESERVE A" =
      (some "Unrestricted", none, some "RESERVE A") := by
  decide

/-- C1: with both a house number and a street type parsed, the address
branch builds exactly the three clauses in most-to-least-specific order;
the loop stops at the first clause with a non-empty result (issuing a later
clause only after every earlier one returned empty), the loop result is
`empty` — which the handler turns into the 404 — exactly when all three
clauses returned empty; with neither number nor type, only the tier-3
clause is built and it is the only clause issued. -/
theorem c1_cascade_three_tiers {F : Type} (f : FieldMap) (number name st_type : String)
    (ds : Datastore F) (hn : number ≠ "") (ht : st_type ≠ "") :
    buildClauses f number name st_type =
      [tier1Clause f number name st_type, tier2Clause f number name, tier3Clause f name] ∧
    (∀ x xs, ds (tier1Clause f number name st_type) = .ok (x :: xs) →
      runCascade ds (buildClauses f number name st_type) =
        ([tier1Clause f number name st_type], .found (x :: xs))) ∧
    (∀ x xs, ds (tier1Clause f number name st_type) = .ok [] →
      ds (tier2Clause f number name) = .ok (x :: xs) →
      runCascade ds (buildClauses f number name st_type) =
        ([tier1Clause f number name st_type, tier2Clause f number name], .found (x :: xs))) ∧
    (∀ x xs, ds (tier1Clause f number name st_type) = .ok [] →
      ds (tier2Clause f number name) = .ok [] →
      ds (tier3Clause f name) = .ok (x :: xs) →
      runCascade ds (buildClauses f number name st_type) =
        ([tier1Clause f number name st_type, tier2Clause f number name, tier3Clause f name],
          .found (x :: xs))) ∧
    ((runCascade ds (buildClauses f number name st_type)).2 = .empty ↔
      ds (tier1Clause f number name st_type) = .ok [] ∧
      ds (tier2Clause f number name) = .ok [] ∧ ds (tier3Clause f name) = .ok []) ∧
    (∀ name0, buildClauses f "" name0 "" = [tier3Clause f name0] ∧
      (runCascade ds (buildClauses f "" name0 "")).1 = [tier3Clause f name0]) := by
  have hcs : buildClauses f number name st_type =
      [tier1Clause f number name st_type, tier2Clause f number name, tier3Clause f name] := by
    simp [buildClauses, hn, ht]
  refine ⟨hcs, ?_, ?_, ?_, ?_, ?_⟩
  · intro x xs h1
    rw [hcs, runCascade_cons_found ds _ _ x xs h1]
  · intro x xs h1 h2
    rw [hcs, runCascade_cons_empty ds _ _ h1, runCascade_cons_found ds _ _ x xs h2]
  · intro x xs h1 h2 h3
    rw [hcs, runCascade_cons_empty ds _ _ h1, runCascade_cons_empty ds _ _ h2,
      runCascade_cons_found ds _ _ x xs h3]
  · rw [hcs]
    constructor
    · intro h
      cases e1 : ds (tier1Clause f number name st_type) with
      | err => rw [runCascade_cons_err ds _ _ e1] at h; simp at h
      | ok fs1 =>
        cases fs1 with
        | cons x xs => rw [runCascade_cons_found ds _ _ x xs e1] at h; simp at h
        | nil =>
          rw [runCascade_cons_empty ds _ _ e1] at h
          cases e2 : ds (tier2Clause f number name) with
          | err => rw [runCascade_cons_err ds _ _ e2] at h; simp at h
          | ok fs2 =>
            cases fs2 with
            | cons x xs => rw [runCascade_cons_found ds _ _ x xs e2] at h; simp at h
            | nil =>
              rw [runCascade_cons_empty ds _ _ e2] at h
              cases e3 : ds (tier3Clause f name) with
              | err => rw [runCascade_cons_err ds _ _ e3] at h; simp at h
              | ok fs3 =>
                cases fs3 with
                | cons x xs => rw [runCascade_cons_found ds _ _ x xs e3] at h; simp at h
                | nil => exact ⟨rfl, rfl, rfl⟩
    · rintro ⟨h1, h2, h3⟩
      rw [runCascade_cons_empty ds _ _ h1, runCascade_cons_empty ds _ _ h2,
        runCascade_cons_empty ds _ _ h3]
      simp [runCascade]
  · intro name0
    have hone : buildClauses f "" name0 "" = [tier3Clause f name0] := by
      simp [buildClauses]
    refine ⟨hone, ?_⟩
    rw [hone]
    cases e : ds (tier3Clause f name0) with
    | err => rw [runCascade_cons_err ds _ _ e]
    | ok fs =>
      cases fs with
      | nil => rw [runCascade_cons_empty ds _ _ e]; simp [runCascade]
      | cons x xs => rw [runCascade_cons_found ds _ _ x xs e]

/-- C1 witness: a concrete address with number and type present, against a
datastore answering every clause with an empty result. -/
theorem c1_cascade_three_tiers_w :
    buildClauses fortbendFields "1234" "Main" "St" =
      [tier1Clause fortbendFields "1234" "Main" "St", tier2Clause fortbendFields "1234" "Main",
        tier3Clause fortbendFields "Main"] :=
  (c1_cascade_three_tiers (F := Unit) fortbendFields "1234" "Main" "St"
    (fun _ => .ok []) (by decide) (by decide)).1

/-- C5: a request carrying a (truthy) quick-reference identifier issues
exactly one datastore query, the exact-match filter on the jurisdiction's
`quickrefid` field, whatever the address parameter holds; an empty result
of that single query resolves to `notFound`, not `invalid`. -/
theorem c5_quickref_single_query {F : Type} (f : FieldMap) (ds : Datastore F)
    (a : Option String) (q : String) (hq : q ≠ "") :
    (resolveParcels f ds ⟨a, some q⟩).1 = [quickrefClause f q] ∧
    (ds (quickrefClause f q) = .ok [] →
      resolveParcels f ds ⟨a, some q⟩ = ([quickrefClause f q], .notFound)) ∧
    quickrefClause f q = f.quickrefid ++ " = \x27" ++ q ++ "\x27" := by
  have hie : q.isEmpty = false := by
    cases h : q.isEmpty with
    | false => rfl
    | true => exact absurd ((String.isEmpty_iff q).mp h) hq
  have htr : truthyOpt (some q) = true := by
    simp [truthyOpt, hie]
  refine ⟨?_, ?_, rfl⟩
  · cases e : ds (quickrefClause f q) with
    | err => simp [resolveParcels, htr, e]
    | ok fs =>
      cases fs with
      | nil => simp [resolveParcels, htr, e]
      | cons x xs => simp [resolveParcels, htr, e]
  · intro e
    simp [resolveParcels, htr, e]

/-- C5 witness: quick-reference lookup against an empty datastore. -/
theorem c5_quickref_single_query_w :
    resolveParcels fortbendFields (fun _ => QueryResult.ok ([] : List Unit))
      ⟨none, some "R123456"⟩ =
      ([quickrefClause fortbendFields "R123456"], .notFound) :=
  (c5_quickref_single_query fortbendFields (fun _ => QueryResult.ok ([] : List Unit))
    none "R123456" (by decide)).2.1 rfl

/-- C6: a transport/server failure on any cascade clause aborts the whole
cascade at that clause — the failing clause is the last one issued, no
later clause is attempted, the outcome is the propagated failure, not a
result — and conversely a cascade that failed consists of clauses that all
returned explicit empty results followed by the failing clause. -/
theorem c6_cascade_error_aborts {F : Type} (ds : Datastore F) :
    (∀ pre c post, (∀ x ∈ pre, ds x = .ok []) → ds c = .err →
      runCascade ds (pre ++ c :: post) = (pre ++ [c], .err)) ∧
    (∀ cs, (runCascade ds cs).2 = .err →
      ∃ pre c, (runCascade ds cs).1 = pre ++ [c] ∧
        (∀ x ∈ pre, ds x = .ok []) ∧ ds c = .err ∧
        cs.take (pre.length + 1) = pre ++ [c]) :=
  ⟨fun pre c post hpre hc => runCascade_append_err ds pre c post hpre hc,
   fun cs h => runCascade_err_decomp ds cs h⟩

/-- C6 witness: a datastore that answers the first clause empty and fails
on the second; the third clause is never issued. -/
theorem c6_cascade_error_aborts_w :
    runCascade (fun s => if s = "A" then QueryResult.ok ([] : List Unit) else .err)
      (["A"] ++ "B" :: ["C"]) = (["A"] ++ ["B"], .err) :=
  (c6_cascade_error_aborts (fun s => if s = "A" then QueryResult.ok ([] : List Unit) else .err)).1
    ["A"] "B" ["C"] (by decide) (by decide)

/-- C10: when a request supplies both a free-text address and a (truthy)
quick-reference identifier, the identifier takes precedence: the resolution
is identical to the one with no address at all (the address is never
parsed, no cascade clause is built or queried) and the only query issued is
the quickrefid exact match. -/
theorem c10_quickref_precedence {F : Type} (f : FieldMap) (ds : Datastore F)
    (addr q : String) (hq : q ≠ "") :
    resolveParcels f ds ⟨some addr, some q⟩ = resolveParcels f ds ⟨none, some q⟩ ∧
    (resolveParcels f ds ⟨some addr, some q⟩).1 = [quickrefClause f q] := by
  have hie : q.isEmpty = false := by
    cases h : q.isEmpty with
    | false => rfl
    | true => exact absurd ((String.isEmpty_iff q).mp h) hq
  have htr : truthyOpt (some q) = true := by
    simp [truthyOpt, hie]
  constructor
  · cases e : ds (quickrefClause f q) with
    | err => simp [resolveParcels, htr, e]
    | ok fs =>
      cases fs with
      | nil => simp [resolveParcels, htr, e]
      | cons x xs => simp [resolveParcels, htr, e]
  · cases e : ds (quickrefClause f q) with
    | err => simp [resolveParcels, htr, e]
    | ok fs =>
      cases fs with
      | nil => simp [resolveParcels, htr, e]
      | cons x xs => simp [resolveParcels, htr, e]

/-- C10 witness: both selectors supplied; the resolution ignores the
address. -/
theorem c10_quickref_precedence_w :
    resolveParcels fortbendFields (fun _ => QueryResult.ok ([] : List Unit))
      ⟨some "1234 Main St", some "X99"⟩ =
      resolveParcels fortbendFields (fun _ => QueryResult.ok ([] : List Unit))
        ⟨none, some "X99"⟩ :=
  (c10_quickref_precedence fortbendFields (fun _ => QueryResult.ok ([] : List Unit))
    "1234 Main St" "X99" (by decide)).1

/-- C8: the path `generate_kmz` writes (a fresh temporary file name) is
never the fixed path `/tmp/parcel.kmz` that the `/download_kmz` handler
reads, whatever random token the temporary-file library picks, so the
artifact generated by an estimate request is not the one retrieved. -/
theorem c8_write_path_ne_download_path (token : String) :
    tempKmzPath token ≠ download_kmz_path := by
  intro h
  have h2 : "/tmp/tmp".data ++ (token.data ++ ".kmz".data) = "/tmp/parcel.kmz".data := by
    simpa [tempKmzPath, download_kmz_path, String.data_append] using congrArg String.data h
  have e1 : "/tmp/tmp".data = ['/', 't', 'm', 'p', '/', 't', 'm', 'p'] := rfl
  have e2 : "/tmp/parcel.kmz".data =
      ['/', 't', 'm', 'p', '/', 'p', 'a', 'r', 'c', 'e', 'l', '.', 'k', 'm', 'z'] := rfl
  rw [e1, e2] at h2
  simp [List.cons_append] at h2

/-- Distributing the hole subtraction over the parts of a multipolygon. -/
lemma sum_polyArea (ps : List Poly) :
    (ps.map polyArea).sum =
      (ps.map fun p => ringArea p.exterior).sum -
        (ps.map fun p => (p.holes.map ringArea).sum).sum := by
  induction ps with
  | nil => simp
  | cons p rest ih =>
    simp only [List.map_cons, List.sum_cons, polyArea, ih]
    ring

/-- C7: for a `MultiPolygon` the numeric perimeter and area aggregate over
all member polygons, the area subtracts every interior-ring (hole) area,
and the KMZ rendering path emits exactly the exterior ring of each member
polygon — holes never appear in the vector file. -/
theorem c7_multipolygon_metrics_and_kmz (ps : List Poly) :
    geomLength (.multi ps) = (ps.map polyLength).sum ∧
    geomArea (.multi ps) =
      (ps.map fun p => ringArea p.exterior).sum -
        (ps.map fun p => (p.holes.map ringArea).sum).sum ∧
    (∀ p : Poly, polyArea p = ringArea p.exterior - (p.holes.map ringArea).sum) ∧
    kmzOuterRings (.multi ps) = ps.map (fun p => p.exterior) :=
  ⟨rfl, sum_polyArea ps, fun _ => rfl, rfl⟩

/-- The projected unit-check square keeps its coordinates under the
identity projection. -/
lemma mapGeom_id_square : mapGeom id square100 = square100 := by
  simp [mapGeom, mapPoly, square100]

/-- Perimeter of the 100 ft square in the target projection. -/
lemma square100_perimeter : geomLength square100 = 400 := by
  have h100 : Real.sqrt ((100 : ℝ) ^ 2) = 100 := Real.sqrt_sq (by norm_num)
  simp only [square100, geomLength, polyLength, ringLength, segLen, List.map_nil,
    List.sum_nil, add_zero]
  norm_num
  rw [show ((10000 : ℝ)) = (100 : ℝ) ^ 2 by norm_num, h100]
  norm_num

/-- Planar area of the 100 ft square in the target projection. -/
lemma square100_area : geomArea square100 = 10000 := by
  simp only [square100, geomArea, polyArea, ringArea, ringCross, List.map_nil,
    List.sum_nil, sub_zero]
  norm_num

/-- C2: the reported perimeter is the boundary length of the reprojected
geometry and the reported acreage is its planar area divided by 43560, the
response rounds both to 2 decimals, the maps-link centroid is computed on
the original geometry — it does not depend on the projection at all — and
a planar square of side 100 ft yields perimeter 400.00 and 0.23 acres. -/
theorem c2_geometry_pipeline :
    (∀ (proj : Point → Point) (geom : Geom),
      (computeMetrics proj geom).perimeter_ft = geomLength (mapGeom proj geom) ∧
      (computeMetrics proj geom).area_acres = geomArea (mapGeom proj geom) / 43560 ∧
      responseMetrics proj geom =
        (round2 (geomArea (mapGeom proj geom) / 43560),
          round2 (geomLength (mapGeom proj geom)), geomCentroid geom)) ∧
    (∀ (proj proj' : Point → Point) (geom : Geom),
      (computeMetrics proj geom).centroid = (computeMetrics proj' geom).centroid) ∧
    round2 (computeMetrics id square100).perimeter_ft = 400 ∧
    round2 (computeMetrics id square100).area_acres = 23 / 100 := by
  have hperim : (computeMetrics id square100).perimeter_ft = 400 := by
    show geomLength (mapGeom id square100) = 400
    rw [mapGeom_id_square, square100_perimeter]
  have harea : (computeMetrics id square100).area_acres = 10000 / 43560 := by
    show geomArea (mapGeom id square100) / 43560 = 10000 / 43560
    rw [mapGeom_id_square, square100_area]
  refine ⟨fun proj geom => ⟨rfl, rfl, rfl⟩, fun proj proj' geom => rfl, ?_, ?_⟩
  · rw [hperim]
    show ((round ((400 : ℝ) * 100) : ℤ) : ℝ) / 100 = 400
    rw [show ((400 : ℝ) * 100) = ((40000 : ℤ) : ℝ) by norm_num, round_intCast]
    norm_num
  · rw [harea]
    show ((round ((10000 : ℝ) / 43560 * 100) : ℤ) : ℝ) / 100 = 23 / 100
    have hr : round ((10000 : ℝ) / 43560 * 100) = 23 := by
      rw [round_eq, Int.floor_eq_iff]
      constructor <;> norm_num
    rw [hr]
    norm_num

/-- C8 witness: a concrete temporary-file token. -/
theorem c8_write_path_ne_download_path_w :
    tempKmzPath "a1b2c3d4" ≠ download_kmz_path :=
  c8_write_path_ne_download_path "a1b2c3d4"

end TejasEstimator
